import Mathlib

/-!
Verification of the ALPack Sandbox Execution Engine (`src/command.rs`,
`src/utils.rs`, `src/run.rs`) against its natural-language specification.

The engine is shallowly embedded: pure string building is translated
directly; interaction with the operating system (filesystem probing, the
environment, process spawning) is made explicit by passing the observed
host state as parameters; Rust panics (`unwrap`) are modelled as `Option`
results (`none` = panic); fallible functions return `Except`.

Modelling notes, fixed across the file:
* `Command::run` receives the backend name from `Settings::load_or_create`
  (`sett.cmd_rootfs`); it is passed here as the `comm` parameter.
* Rust's `str::split_whitespace` and `str::split(sep)` are modelled
  character-exactly by `splitWS` / `splitChar` below; `str::lines` by
  `rustLines` (the embedded strings contain no carriage returns).
* `u32` arithmetic does not overflow anywhere in the embedded code paths
  (uids are parsed, never computed with), so uids are plain `Nat`.
-/

/-! ## Character-level string splitting (model of Rust `str` iterators) -/

/-- Accumulator loop for whitespace splitting: `acc` is the reversed current
word; maximal whitespace-free runs are emitted, empty words never are.
This is the behaviour of Rust's `str::split_whitespace`. -/
def wordsGo : List Char → List Char → List (List Char)
  | [], acc => if acc = [] then [] else [acc.reverse]
  | c :: cs, acc =>
    if c.isWhitespace then
      if acc = [] then wordsGo cs [] else acc.reverse :: wordsGo cs []
    else wordsGo cs (c :: acc)

/-- Model of Rust `str::split_whitespace` collected into a vector
(`command.rs` line 30: `args.split_whitespace().collect()`). -/
def splitWS (s : String) : List String :=
  (wordsGo s.data []).map fun l => ⟨l⟩

/-- Accumulator loop for separator splitting; empty pieces are kept,
matching Rust's `str::split(sep)`. -/
def splitChGo (sep : Char) : List Char → List Char → List (List Char)
  | [], acc => [acc.reverse]
  | c :: cs, acc =>
    if c = sep then acc.reverse :: splitChGo sep cs []
    else splitChGo sep cs (c :: acc)

/-- Model of Rust `str::split(sep)` collected into a vector. -/
def splitChar (sep : Char) (s : String) : List String :=
  (splitChGo sep s.data []).map fun l => ⟨l⟩

/-- Model of Rust `str::lines` (for inputs without carriage returns):
split on `'\n'`, a trailing newline produces no empty final line. -/
def rustLines (s : String) : List String :=
  let ps := splitChar '\n' s
  if ps.getLast? = some "" then ps.dropLast else ps

/-- Model of the `concat_path!` macro (`macros.rs` lines 62-71): trailing
slashes are trimmed from the base, leading and trailing slashes from the
segment, joined with a single slash. -/
def concatPath (base seg : String) : String :=
  ⟨base.data.reverse.dropWhile (· = '/') |>.reverse⟩ ++ "/" ++
    ⟨(seg.data.dropWhile (· = '/')).reverse.dropWhile (· = '/') |>.reverse⟩

/-! ## Host state observed by the Host Resource Mounter -/

/-- Existence of the six fixed optional host paths probed by both builders
(`command.rs` lines 103-120 and 194-211), plus the list of
`/usr/share/icons/<theme>/cursors` directories found by the icon
enumeration (lines 122-132 / 213-225; already filtered by `is_dir`). -/
structure HostState where
  etcAsoundConf : Bool
  etcFonts : Bool
  usrShareFontConfig : Bool
  usrShareFontconfig : Bool
  usrShareFonts : Bool
  usrShareThemes : Bool
  iconCursorDirs : List String
  deriving DecidableEq

/-! ## Mount Table Repair (`Command::fix_mtab_symlink`, `command.rs` 266-312) -/

/-- What currently sits at `<rootfs>/etc/mtab`. `unreadableSymlink` is a
symlink whose target `fs::read_link` fails to read (source lines 291-296). -/
inductive MtabEntry where
  | absent
  | symlinkTo (target : String)
  | unreadableSymlink
  | regularFile
  deriving DecidableEq

/-- Filesystem state relevant to Mount Table Repair, including which of the
fallible operating-system calls would fail if attempted. -/
structure FsState where
  mtab : MtabEntry
  parentCreateFails : Bool
  removeFails : Bool
  symlinkCreateFails : Bool
  deriving DecidableEq

/-- Target of the repaired mount-table symlink (`command.rs` line 270). -/
def desiredMtabTarget : String := "/proc/self/mounts"

/-- Model of the `fs::remove_file(&mtab_path)` calls: on failure the entry
is left in place and only a warning is logged (source lines 286-300). -/
def removeMtabEntry (fs : FsState) : FsState :=
  if fs.removeFails then fs else { fs with mtab := .absent }

/-- Model of `symlink(desired_target, &mtab_path)` (source lines 306-309):
creation fails if the operating system refuses or if the path is still
occupied (an earlier removal failed); failure is logged and returned. -/
def createMtabSymlink (fs : FsState) : FsState × Bool :=
  if fs.symlinkCreateFails ∨ fs.mtab ≠ .absent then (fs, false)
  else ({ fs with mtab := .symlinkTo desiredMtabTarget }, true)

/-- Model of `Command::fix_mtab_symlink` (`command.rs` 266-312). The
`create_dir_all` on the parent (lines 272-276) only logs on failure and
does not change the modelled state. The returned `Bool` is `true` for
`Ok(())` and `false` for `Err`. -/
def Command.fix_mtab_symlink (fs : FsState) : FsState × Bool :=
  match fs.mtab with
  | .symlinkTo t =>
    if t = desiredMtabTarget then (fs, true)
    else createMtabSymlink (removeMtabEntry fs)
  | .unreadableSymlink => createMtabSymlink (removeMtabEntry fs)
  | .regularFile => createMtabSymlink (removeMtabEntry fs)
  | .absent => createMtabSymlink fs

/-! ## Isolation Argument Builder -/

/-- Optional-bind contributions of the ptrace variant (`command.rs`
102-133), in source order: the six fixed candidates, then one
`--bind=<dir>` per discovered cursors directory. -/
def extra_binds_proot (host : HostState) : String :=
  (if host.etcAsoundConf then " --bind=/etc/asound.conf" else "") ++
  (if host.etcFonts then " --bind=/etc/fonts" else "") ++
  (if host.usrShareFontConfig then " --bind=/usr/share/font-config" else "") ++
  (if host.usrShareFontconfig then " --bind=/usr/share/fontconfig" else "") ++
  (if host.usrShareFonts then " --bind=/usr/share/fonts" else "") ++
  (if host.usrShareThemes then " --bind=/usr/share/themes" else "") ++
  host.iconCursorDirs.foldl (fun s d => s ++ " --bind=" ++ d) ""

/-- Optional-bind contributions of the namespace variant (`command.rs`
193-226): same candidates, each contributing a read-only source/destination
pair. -/
def extra_binds_bwrap (host : HostState) : String :=
  (if host.etcAsoundConf then " --ro-bind /etc/asound.conf /etc/asound.conf" else "") ++
  (if host.etcFonts then " --ro-bind /etc/fonts /etc/fonts" else "") ++
  (if host.usrShareFontConfig then " --ro-bind /usr/share/font-config /usr/share/font-config" else "") ++
  (if host.usrShareFontconfig then " --ro-bind /usr/share/fontconfig /usr/share/fontconfig" else "") ++
  (if host.usrShareFonts then " --ro-bind /usr/share/fonts /usr/share/fonts" else "") ++
  (if host.usrShareThemes then " --ro-bind /usr/share/themes /usr/share/themes" else "") ++
  host.iconCursorDirs.foldl (fun s d => s ++ " --ro-bind " ++ d ++ " " ++ d) ""

/-- Model of `Command::build_proot_options` (`command.rs` 92-136). The
format string `-R {rootfs} --bind=/media --bind=/mnt {rootfs_args}` is
spelled out segment by segment; the guest passwd/group self-binds are
appended when `no_group` is `true` (source line 95: `if no_group`). -/
def Command.build_proot_options (rootfs rootfs_args : String)
    (no_extra_binds no_group : Bool) (host : HostState) : String :=
  let opts := "-R" ++ " " ++ rootfs ++ " " ++ "--bind=/media --bind=/mnt" ++ " " ++ rootfs_args
  let opts := if no_group then
      opts ++ " " ++ ("--bind=" ++ rootfs ++ "/etc/group:/etc/group") ++
        " " ++ ("--bind=" ++ rootfs ++ "/etc/passwd:/etc/passwd")
    else opts
  if !no_extra_binds then opts ++ extra_binds_proot host else opts

/-- Pure part of `Command::build_bwrap_options` (`command.rs` 157-228): the
composed option string, given the value `a` of the `HOME` environment
variable. The base format string (lines 159-182, with the backslash line
continuations collapsed to single spaces) is spelled out segment by
segment; the host passwd/group read-only binds are appended when
`no_group` is `false` (line 184: `if !no_group`); the optional binds
(lines 193-226) are appended last. -/
def Command.bwrap_options_str (rootfs rootfs_args : String)
    (ignore_extra_binds no_group : Bool) (host : HostState) (a : String) : String :=
  let base :=
    "--unshare-user --share-net --bind" ++ " " ++ rootfs ++ " " ++
    "/ --die-with-parent --ro-bind-try /etc/host.conf /etc/host.conf --ro-bind-try /etc/hosts /etc/hosts --ro-bind-try /etc/hosts.equiv /etc/hosts.equiv --ro-bind-try /etc/netgroup /etc/netgroup --ro-bind-try /etc/networks /etc/networks --ro-bind-try /etc/nsswitch.conf /etc/nsswitch.conf --ro-bind-try /etc/resolv.conf /etc/resolv.conf --ro-bind-try /etc/localtime /etc/localtime --dev-bind /dev /dev --ro-bind /sys /sys --bind-try /proc /proc --bind-try /tmp /tmp --bind-try /run /run --ro-bind /var/run/dbus/system_bus_socket /var/run/dbus/system_bus_socket --bind" ++
    " " ++ a ++ " " ++ a ++ " " ++
    "--bind /media /media --bind /mnt /mnt" ++ " " ++ rootfs_args ++ " " ++
    "--setenv PATH \"/bin:/sbin:/usr/bin:/usr/sbin:/usr/libexec\""
  let withGroup := if !no_group then
      base ++ " " ++ "--ro-bind-try /etc/passwd /etc/passwd --ro-bind-try /etc/group /etc/group"
    else base
  if !ignore_extra_binds then withGroup ++ extra_binds_bwrap host else withGroup

/-- Model of `Command::build_bwrap_options` (`command.rs` 157-229)
including its two panic sites: `env::var("HOME").unwrap()` (line 182)
panics when `HOME` is unset, and `Self::fix_mtab_symlink(..).unwrap()`
(line 191) panics when Mount Table Repair returns an error. `none` is a
panic; on success the composed options and the repaired filesystem state
are returned. -/
def Command.build_bwrap_options (rootfs rootfs_args : String)
    (ignore_extra_binds no_group : Bool) (host : HostState)
    (home : Option String) (fs : FsState) : Option (String × FsState) :=
  match home with
  | none => none
  | some a =>
    let opts := Command.bwrap_options_str rootfs rootfs_args ignore_extra_binds no_group host a
    match Command.fix_mtab_symlink fs with
    | (fs2, true) => some (opts, fs2)
    | (_, false) => none

/-! ## Identity Emulation Layer -/

/-- Environment variables and files read by `Command::get_uid_from_passwd`
(`command.rs` 242-255): `USER`, `LOGNAME`, and the contents of
`/etc/passwd` (`none` models an unreadable file, defaulted to `""`). -/
structure EnvState where
  user : Option String
  logname : Option String
  passwdContent : Option String
  deriving DecidableEq

/-- Model of Rust's `str::parse::<u32>` for the values that occur in a
passwd uid field: all-digit non-empty strings parse to their decimal
value, everything else fails. (A leading `+` sign and the `u32` overflow
bound are not modelled; neither occurs in a well-formed passwd file.) -/
def parseU32 (s : String) : Option Nat :=
  if s.data ≠ [] ∧ s.data.all Char.isDigit then
    some (s.data.foldl (fun n c => n * 10 + (c.toNat - 48)) 0)
  else none

/-- Model of `Command::get_uid_from_passwd` (`command.rs` 242-255): look
up a line of `/etc/passwd` that starts with the `USER`-or-`LOGNAME` name,
take its third `:`-field, parse it, falling back to `1000` at every step. -/
def Command.get_uid_from_passwd (env : EnvState) : Nat :=
  let username := (env.user.orElse fun _ => env.logname).getD ""
  let passwd := env.passwdContent.getD ""
  if username = "" ∨ passwd = "" then 1000
  else
    match (rustLines passwd).find? (fun line => username.data.isPrefixOf line.data) with
    | none => 1000
    | some line =>
      match (splitChar ':' line).get? 2 with
      | none => 1000
      | some f => parseU32 f |>.getD 1000

/-- Model of the identity environment string `str` (`command.rs` 33-39),
chosen by backend and privilege level and later split on `'|'`. -/
def identityStr (comm : String) (use_root : Bool) (uid : Nat) : String :=
  match comm, use_root with
  | "proot", true => "PS1=# |USER=root|LOGNAME=root|UID=0|EUID=0"
  | "proot", false => "PS1=$ |UID=" ++ toString uid ++ "|EUID=" ++ toString uid
  | "bwrap", true => "PS1=# "
  | "bwrap", false => "PS1=$ |UID=" ++ toString uid ++ "|EUID=" ++ toString uid
  | _, _ => "PS1=$ |UID=" ++ toString uid ++ "|EUID=" ++ toString uid

/-- Extra argv entries pushed for root emulation (`command.rs` 41-52):
`-0` for proot, the uid/gid remap and `USER`/`LOGNAME` overrides for
bwrap. -/
def rootExtraArgs (comm : String) (use_root : Bool) : List String :=
  (if comm = "proot" ∧ use_root then ["-0"] else []) ++
  (if comm = "bwrap" ∧ use_root then
      ["--uid", "0", "--gid", "0", "--setenv", "USER", "root", "--setenv", "LOGNAME", "root"]
    else [])

/-- Assembly of the full argv passed to the backend (`command.rs` 30-65):
whitespace-split options, root-emulation extras, `env`, the `'|'`-split
identity string, `SHELL`/`PATH` and the login shell, then `-c <cmd>`
exactly when the command string is non-empty (lines 62-65). -/
def assembleFullArgs (comm opts : String) (use_root : Bool) (uid : Nat)
    (new_cmd : String) : List String :=
  splitWS opts ++ rootExtraArgs comm use_root ++ ["env"] ++
  splitChar '|' (identityStr comm use_root uid) ++
  ["SHELL=/bin/sh", "PATH=/bin:/sbin:/usr/bin:/usr/sbin:/usr/libexec", "/bin/sh"] ++
  (if new_cmd = "" then [] else ["-c", new_cmd])

/-! ## Rootfs existence check (`utils::check_rootfs_exists`, `utils.rs` 81-92) -/

/-- Visual separator used in terminal output (`utils.rs` line 22): a
literal of sixty box-drawing `═` characters in the source. -/
def SEPARATOR : String := ⟨List.replicate 60 '═'⟩

/-- Model of `utils::get_cmd_box` (`utils.rs` 103-120). Every character
that reaches it in the embedded paths is ASCII, so Rust's byte length
agrees with the character length used here. -/
def get_cmd_box (command : String) (indent : Option Nat) (size : Option Nat) : String :=
  let padding : String := ⟨List.replicate (indent.getD 0) ' '⟩
  let width := max (size.getD 50) (command.length + 4)
  let inner_width := width - 2
  let line : String := ⟨List.replicate inner_width '═'⟩
  let top := padding ++ "╔" ++ line ++ "╗"
  let bottom := padding ++ "╚" ++ line ++ "╝"
  let trailing_spaces : String := ⟨List.replicate (inner_width - command.length - 1) ' '⟩
  let middle := padding ++ "║ " ++ command ++ trailing_spaces ++ "║"
  top ++ "\n" ++ middle ++ "\n" ++ bottom

/-- Error message of `utils::check_rootfs_exists` (`utils.rs` 85-89); the
boxed remediation command uses the running binary's name (the call site in
`command.rs` line 17 computes it from `current_exe`). -/
def rootfs_missing_msg (appName path : String) : String :=
  let b := get_cmd_box ("$ " ++ appName ++ " setup") (some 2) none
  SEPARATOR ++ "\n  Error: rootfs directory not found.\n\n  Expected location:\n    -> " ++
    path ++ "\n\n  Please run the following command to set it up:\n" ++ b ++ "\n" ++ SEPARATOR

/-- Model of `utils::check_rootfs_exists` (`utils.rs` 81-92). `isDir` is
the observed value of `fs::metadata(path).map(|m| m.is_dir()).unwrap_or(false)`. -/
def check_rootfs_exists (appName path : String) (isDir : Bool) : Except String Unit :=
  if isDir then .ok () else .error (rootfs_missing_msg appName path)

/-! ## Backend Selector (`utils::verify_and_download_rootfs_command`, `utils.rs` 273-303) -/

/-- Model of `utils::binary_url` (`utils.rs` 254-260). -/
def binary_url (cmd : String) : Option String :=
  if cmd = "proot" then
    some "https://github.com/LinuxDicasPro/StaticHub/releases/download/proot/proot"
  else if cmd = "bwrap" then
    some "https://github.com/LinuxDicasPro/StaticHub/releases/download/bwrap/bwrap"
  else none

/-- Model of `utils::get_safe_home` (`utils.rs` 34-36): the `HOME`
environment variable with the fallback `"."`. -/
def get_safe_home (home : Option String) : String := home.getD "."

/-- Operating-system state observed by the Backend Selector: the result of
the `which` search over `PATH`, the `HOME` variable, whether the per-user
cache already holds the binary, the CPU architecture, and whether the
download and the permission change would succeed. -/
structure ResolveEnv where
  whichResult : Option String
  home : Option String
  localExists : Bool
  arch : String
  downloadOk : Bool
  chmodOk : Bool
  deriving DecidableEq

instance {ε α : Type} [DecidableEq ε] [DecidableEq α] : DecidableEq (Except ε α) := fun x y =>
  match x, y with
  | .ok a, .ok b =>
    if h : a = b then .isTrue (by subst h; rfl)
    else .isFalse (by intro hh; injection hh; contradiction)
  | .error a, .error b =>
    if h : a = b then .isTrue (by subst h; rfl)
    else .isFalse (by intro hh; injection hh; contradiction)
  | .ok _, .error _ => .isFalse (by intro hh; injection hh)
  | .error _, .ok _ => .isFalse (by intro hh; injection hh)

/-- Result of backend resolution plus its side effect: the path whose
permission bits `make_executable` was applied to, if any. -/
structure ResolveOutcome where
  result : Except String String
  chmodTarget : Option String
  deriving DecidableEq

/-- Model of `utils::verify_and_download_rootfs_command` (`utils.rs`
273-303). Resolution order: `which` over `PATH`; then the per-user cache
`~/.local/bin/<cmd>`; then, only on x86_64, download. Note that
`download_file` returns `save_dest`, the destination DIRECTORY (`utils.rs`
lines 199 and 228), so the downloaded branch applies `make_executable` to
the cache directory and returns the cache directory as the resolved
executable path — exactly as the source does. -/
def verify_and_download_rootfs_command (cmd : String) (e : ResolveEnv) : ResolveOutcome :=
  match e.whichResult with
  | some p => { result := .ok p, chmodTarget := none }
  | none =>
    let local_dir := concatPath (get_safe_home e.home) ".local/bin"
    let local_path := concatPath local_dir cmd
    if e.localExists then { result := .ok local_path, chmodTarget := none }
    else if e.arch ≠ "x86_64" then
      { result := .error (cmd ++ " not found in the system and no binary is available for this architecture"),
        chmodTarget := none }
    else
      match binary_url cmd with
      | none => { result := .error "invalid cmd_rootfs", chmodTarget := none }
      | some _url =>
        if e.downloadOk then
          let downloaded := local_dir
          if e.chmodOk then { result := .ok downloaded, chmodTarget := some downloaded }
          else { result := .error "failed to set permissions", chmodTarget := some downloaded }
        else { result := .error "download failed", chmodTarget := none }

/-! ## Process Launcher and `Command::run` (`command.rs` 11-75) -/

/-- Outcome of one engine invocation: a propagated fatal error
(`Result::Err`), a panic (`unwrap` failure), or the child's exit code. -/
inductive RunOutcome where
  | fatal (msg : String)
  | panicked
  | exited (code : Int)
  deriving DecidableEq

/-- Observable trace of one `Command::run` invocation: its outcome,
whether an isolation plan (options string) was composed, the argv that
reached the spawn call, and whether a child process was spawned. -/
structure RunTrace where
  outcome : RunOutcome
  planBuilt : Bool
  argv : Option (List String)
  spawned : Bool
  deriving DecidableEq

/-- Model of the spawn-and-wait tail of `Command::run` (`command.rs`
54-74): `spawnRes` is the observed `status()` result, carrying
`status.code()`; the exit code defaults to `-1` (line 74). -/
def Command.launch (comm opts : String) (use_root : Bool) (uid : Nat)
    (new_cmd : String) (spawnRes : Except String (Option Int)) : RunTrace :=
  let argv := assembleFullArgs comm opts use_root uid new_cmd
  match spawnRes with
  | .error e => { outcome := .fatal e, planBuilt := true, argv := some argv, spawned := false }
  | .ok c => { outcome := .exited (c.getD (-1)), planBuilt := true, argv := some argv, spawned := true }

/-- Model of `Command::run` (`command.rs` 11-75). Parameters carry the
observed host state: `comm` is `sett.cmd_rootfs`, `appName` the
`current_exe` file name, `rootfsIsDir` the rootfs metadata probe,
`resolveRes` the Backend Selector result, `spawnRes` the spawn result. -/
def Command.run (comm appName : String) (rootfsIsDir : Bool) (rootfs : String)
    (args_bind cmd : Option String) (use_root ignore_extra_bind no_group : Bool)
    (env : EnvState) (host : HostState) (home : Option String) (fs : FsState)
    (resolveRes : Except String String) (spawnRes : Except String (Option Int)) : RunTrace :=
  match check_rootfs_exists appName rootfs rootfsIsDir with
  | .error e => { outcome := .fatal e, planBuilt := false, argv := none, spawned := false }
  | .ok _ =>
    match resolveRes with
    | .error e => { outcome := .fatal e, planBuilt := false, argv := none, spawned := false }
    | .ok _rootfs_cmd =>
      let uid := Command.get_uid_from_passwd env
      let new_cmd := cmd.getD ""
      if comm = "proot" then
        Command.launch comm
          (Command.build_proot_options rootfs (args_bind.getD "") ignore_extra_bind no_group host)
          use_root uid new_cmd spawnRes
      else if comm = "bwrap" then
        match Command.build_bwrap_options rootfs (args_bind.getD "") ignore_extra_bind no_group host home fs with
        | some (opts, _) => Command.launch comm opts use_root uid new_cmd spawnRes
        | none => { outcome := .panicked, planBuilt := false, argv := none, spawned := false }
      else
        { outcome := .fatal ("Unsupported rootfs command: " ++ comm),
          planBuilt := false, argv := none, spawned := false }

/-! ## Spec-side definition for claim C2 -/

/-- Formalisation of claim C2's words for the non-root case, for
comparison with the code: the identity token of a `useRoot = false`
invocation encodes the caller's real uid as captured by the operating
system's identity query (`currentRealIdentity()`), i.e. the argv carries
`UID=<realUid>`. The code model has no such input at all: the uid it
encodes comes from `Command.get_uid_from_passwd`. -/
def specNonRootEncodesRealUid (comm : String) (realUid : Nat) (env : EnvState)
    (opts : String) : Prop :=
  ("UID=" ++ toString realUid) ∈
    assembleFullArgs comm opts false (Command.get_uid_from_passwd env) ""

/-- Concrete host state with no optional bind candidates, used by several
concrete evaluations below. -/
def emptyHost : HostState :=
  { etcAsoundConf := false, etcFonts := false, usrShareFontConfig := false
    usrShareFontconfig := false, usrShareFonts := false, usrShareThemes := false
    iconCursorDirs := [] }

/-- Filesystem state whose mount-table path holds a regular file that the
operating system refuses to remove: repair reaches the final symlink
creation with the path still occupied and fails (first concrete failure
state used below). -/
def stuckFs : FsState :=
  { mtab := .regularFile, parentCreateFails := false, removeFails := true
    symlinkCreateFails := false }

/-- Filesystem state on which every repair operation succeeds, with no
mount-table entry present yet. -/
def okFs : FsState :=
  { mtab := .absent, parentCreateFails := false, removeFails := false
    symlinkCreateFails := false }

/-- Environment in which neither `USER` nor `LOGNAME` is set but
`/etc/passwd` is readable: the uid lookup falls back to 1000. -/
def env0 : EnvState :=
  { user := none, logname := none, passwdContent := some "root:x:0:0:root:/root:/bin/sh" }

/-- A string is space-led when it is empty or starts with a space: the
shape of every optional-bind contribution. -/
def spLed (s : String) : Prop := s = "" ∨ s.data.head? = some ' '

/-- The `PATH` override token of the namespace variant, double quotes
included (`command.rs` line 182 writes `\"...\"` inside the format
string). -/
def quotedPathToken : String := "\"/bin:/sbin:/usr/bin:/usr/sbin:/usr/libexec\""

/-- The two self-referential passwd/group bind tokens of the ptrace
variant (`command.rs` 96-99). -/
def prootGroupToks (r : String) : List String :=
  ["--bind=" ++ r ++ "/etc/group:/etc/group", "--bind=" ++ r ++ "/etc/passwd:/etc/passwd"]

/-- The six host passwd/group read-only bind tokens of the namespace
variant (`command.rs` 185-188). -/
def bwrapGroupToks : List String :=
  ["--ro-bind-try", "/etc/passwd", "/etc/passwd", "--ro-bind-try", "/etc/group", "/etc/group"]

/-- Token list of the namespace variant's base format string (`command.rs`
159-182) for rootfs `r` and home directory `a`. -/
def bwrapBaseToks (r a : String) : List String :=
  ["--unshare-user", "--share-net", "--bind", r, "/", "--die-with-parent",
   "--ro-bind-try", "/etc/host.conf", "/etc/host.conf",
   "--ro-bind-try", "/etc/hosts", "/etc/hosts",
   "--ro-bind-try", "/etc/hosts.equiv", "/etc/hosts.equiv",
   "--ro-bind-try", "/etc/netgroup", "/etc/netgroup",
   "--ro-bind-try", "/etc/networks", "/etc/networks",
   "--ro-bind-try", "/etc/nsswitch.conf", "/etc/nsswitch.conf",
   "--ro-bind-try", "/etc/resolv.conf", "/etc/resolv.conf",
   "--ro-bind-try", "/etc/localtime", "/etc/localtime",
   "--dev-bind", "/dev", "/dev", "--ro-bind", "/sys", "/sys",
   "--bind-try", "/proc", "/proc", "--bind-try", "/tmp", "/tmp",
   "--bind-try", "/run", "/run",
   "--ro-bind", "/var/run/dbus/system_bus_socket", "/var/run/dbus/system_bus_socket",
   "--bind", a, a, "--bind", "/media", "/media", "--bind", "/mnt", "/mnt",
   "--setenv", "PATH", quotedPathToken]

/-- Strings are equal when their character lists are. -/
theorem strExt {a b : String} (h : a.data = b.data) : a = b := by
  cases a; cases b; simp_all

theorem strMkData (s : String) : (⟨s.data⟩ : String) = s := by
  cases s; rfl

theorem strMkAppend (a b : String) : (⟨a.data ++ b.data⟩ : String) = a ++ b := by
  cases a; cases b; rfl

theorem data_ne_nil_of_ne_empty {w : String} (h : w ≠ "") : w.data ≠ [] := by
  intro hd
  exact h (strExt (by simp [hd]))

/-! ### Lemmas about `wordsGo` / `splitWS` -/

theorem wordsGo_append_white (c : Char) (hc : c.isWhitespace = true) :
    ∀ (l1 l2 acc : List Char),
      wordsGo (l1 ++ c :: l2) acc = wordsGo (l1 ++ [c]) acc ++ wordsGo l2 [] := by
  intro l1
  induction l1 with
  | nil =>
    intro l2 acc
    by_cases h : acc = [] <;> simp [wordsGo, hc, h]
  | cons a l1 ih =>
    intro l2 acc
    simp only [List.cons_append, wordsGo, List.append_eq]
    by_cases h : a.isWhitespace = true
    · rw [if_pos h, if_pos h]
      by_cases h2 : acc = []
      · rw [if_pos h2, if_pos h2, ih]
      · rw [if_neg h2, if_neg h2, ih]
        simp
    · rw [if_neg h, if_neg h, ih]

theorem wordsGo_append_trailing (c : Char) (hc : c.isWhitespace = true) :
    ∀ (l1 acc : List Char), wordsGo (l1 ++ [c]) acc = wordsGo l1 acc := by
  intro l1
  induction l1 with
  | nil =>
    intro acc
    by_cases h : acc = [] <;> simp [wordsGo, hc, h]
  | cons a l1 ih =>
    intro acc
    simp only [List.cons_append, wordsGo, List.append_eq]
    by_cases h : a.isWhitespace = true
    · rw [if_pos h, if_pos h]
      by_cases h2 : acc = []
      · rw [if_pos h2, if_pos h2, ih]
      · rw [if_neg h2, if_neg h2, ih]
    · rw [if_neg h, if_neg h, ih]

theorem wordsGo_split (c : Char) (hc : c.isWhitespace = true) (l1 l2 : List Char) :
    wordsGo (l1 ++ c :: l2) [] = wordsGo l1 [] ++ wordsGo l2 [] := by
  rw [wordsGo_append_white c hc, wordsGo_append_trailing c hc]

/-- `splitWS` only looks at the character data. -/
theorem splitWS_congr {a b : String} (h : a.data = b.data) : splitWS a = splitWS b := by
  simp [splitWS, h]

theorem splitWS_append_sp (a b : String) : splitWS (a ++ " " ++ b) = splitWS a ++ splitWS b := by
  have hd : (a ++ " " ++ b).data = a.data ++ ' ' :: b.data := by
    simp [String.data_append]
  simp only [splitWS, hd, wordsGo_split ' ' rfl a.data b.data, List.map_append]

theorem wordsGo_all_non_white (l : List Char) (hl : ∀ c ∈ l, c.isWhitespace = false) (acc : List Char) :
    wordsGo l acc = if acc = [] ∧ l = [] then [] else [acc.reverse ++ l] := by
  induction l generalizing acc with
  | nil =>
    by_cases h : acc = [] <;> simp [wordsGo, h]
  | cons a l ih =>
    have ha : a.isWhitespace = false := hl a (by simp)
    have hl2 : ∀ c ∈ l, c.isWhitespace = false := fun c hc => hl c (by simp [hc])
    simp [wordsGo, ha, ih hl2]

theorem splitWS_single (w : String) (hne : w ≠ "")
    (hw : ∀ c ∈ w.data, c.isWhitespace = false) : splitWS w = [w] := by
  simp [splitWS, wordsGo_all_non_white w.data hw [], data_ne_nil_of_ne_empty hne, strMkData]

theorem splitWS_empty : splitWS "" = [] := rfl

theorem wordsGo_white_free (l : List Char) :
    ∀ (acc : List Char), (∀ c ∈ acc, c.isWhitespace = false) →
      ∀ t ∈ wordsGo l acc, ∀ c ∈ t, c.isWhitespace = false := by
  induction l with
  | nil =>
    intro acc hacc t ht c hc
    by_cases h : acc = [] <;> simp [wordsGo, h] at ht
    subst ht
    exact hacc c (by simpa using hc)
  | cons a l ih =>
    intro acc hacc t ht c hc
    by_cases h : a.isWhitespace = true
    · by_cases h2 : acc = [] <;> simp [wordsGo, h, h2] at ht
      · exact ih [] (by simp) t ht c hc
      · rcases ht with ht | ht
        · subst ht
          exact hacc c (by simpa using hc)
        · exact ih [] (by simp) t ht c hc
    · simp only [Bool.not_eq_true] at h
      simp only [wordsGo, h] at ht
      refine ih (a :: acc) ?_ t (by simpa using ht) c hc
      intro d hd
      rcases List.mem_cons.mp hd with hd | hd
      · subst hd; exact h
      · exact hacc d hd

/-- Every token produced by whitespace splitting is itself whitespace-free
(hence a string containing whitespace can never be one of the tokens). -/
theorem splitWS_white_free (s : String) :
    ∀ t ∈ splitWS s, ∀ c ∈ t.data, c.isWhitespace = false := by
  intro t ht c hc
  simp only [splitWS, List.mem_map] at ht
  obtain ⟨l, hl, rfl⟩ := ht
  exact wordsGo_white_free s.data [] (by simp) l hl c hc

/-! ### Lemmas about `splitChGo` / `splitChar` -/

theorem splitChGo_append_sep (sep : Char) :
    ∀ (l1 l2 acc : List Char),
      splitChGo sep (l1 ++ sep :: l2) acc = splitChGo sep l1 acc ++ splitChGo sep l2 [] := by
  intro l1
  induction l1 with
  | nil =>
    intro l2 acc
    simp [splitChGo]
  | cons a l1 ih =>
    intro l2 acc
    simp only [List.cons_append, splitChGo, List.append_eq]
    by_cases h : a = sep
    · rw [if_pos h, if_pos h, ih]
      simp
    · rw [if_neg h, if_neg h, ih]

theorem splitChGo_no_sep (sep : Char) :
    ∀ (l acc : List Char), sep ∉ l → splitChGo sep l acc = [acc.reverse ++ l] := by
  intro l
  induction l with
  | nil => intro acc _; simp [splitChGo]
  | cons a l ih =>
    intro acc hmem
    have ha : a ≠ sep := fun h => hmem (by simp [h])
    have hl : sep ∉ l := fun h => hmem (by simp [h])
    simp only [splitChGo, List.append_eq]
    rw [if_neg (fun h => ha h), ih (a :: acc) hl]
    simp

/-! ### Decimal digits contain no `'|'` separator -/

theorem digitChar_ne_pipe (n : Nat) : Nat.digitChar n ≠ '|' := by
  by_cases h16 : n < 16
  · interval_cases n <;> decide
  · have hs : Nat.digitChar n = '*' := by
      simp only [Nat.digitChar,
        if_neg (by omega : ¬ n = 0), if_neg (by omega : ¬ n = 1),
        if_neg (by omega : ¬ n = 2), if_neg (by omega : ¬ n = 3),
        if_neg (by omega : ¬ n = 4), if_neg (by omega : ¬ n = 5),
        if_neg (by omega : ¬ n = 6), if_neg (by omega : ¬ n = 7),
        if_neg (by omega : ¬ n = 8), if_neg (by omega : ¬ n = 9),
        if_neg (by omega : ¬ n = 10), if_neg (by omega : ¬ n = 11),
        if_neg (by omega : ¬ n = 12), if_neg (by omega : ¬ n = 13),
        if_neg (by omega : ¬ n = 14), if_neg (by omega : ¬ n = 15)]
    rw [hs]
    decide

theorem toDigitsCore_ne_pipe (fuel : Nat) :
    ∀ (n : Nat) (ds : List Char), (∀ c ∈ ds, c ≠ '|') →
      ∀ c ∈ Nat.toDigitsCore 10 fuel n ds, c ≠ '|' := by
  induction fuel with
  | zero =>
    intro n ds hds
    simpa [Nat.toDigitsCore] using hds
  | succ fuel ih =>
    intro n ds hds c hc
    have hcons : ∀ x ∈ Nat.digitChar (n % 10) :: ds, x ≠ '|' := by
      intro x hx
      rcases List.mem_cons.mp hx with hx | hx
      · subst hx; exact digitChar_ne_pipe (n % 10)
      · exact hds x hx
    simp only [Nat.toDigitsCore] at hc
    by_cases h : n / 10 = 0
    · rw [if_pos h] at hc
      exact hcons c hc
    · rw [if_neg h] at hc
      exact ih (n / 10) (Nat.digitChar (n % 10) :: ds) hcons c hc

theorem toString_nat_no_pipe (n : Nat) : '|' ∉ (toString n).data := by
  intro h
  exact toDigitsCore_ne_pipe (n + 1) n [] (by simp) '|' h rfl

/-- The identity string of every non-root invocation, whichever backend,
splits on `'|'` into the prompt and the two uid hints (`command.rs` 35,
37, 38 and 55). -/
theorem splitChar_identityStr_nonroot (comm : String) (uid : Nat) :
    splitChar '|' (identityStr comm false uid) =
      ["PS1=$ ", "UID=" ++ toString uid, "EUID=" ++ toString uid] := by
  have hval : identityStr comm false uid =
      "PS1=$ |UID=" ++ toString uid ++ "|EUID=" ++ toString uid := by
    by_cases h1 : comm = "proot"
    · simp [identityStr, h1]
    · by_cases h2 : comm = "bwrap" <;> simp [identityStr, h1, h2]
  have hdata : (identityStr comm false uid).data =
      "PS1=$ ".data ++ '|' :: (("UID=".data ++ (toString uid).data) ++
        '|' :: ("EUID=".data ++ (toString uid).data)) := by
    rw [hval]
    simp [String.data_append]
  have h1 : '|' ∉ ("UID=".data ++ (toString uid).data) := by
    intro h
    rcases List.mem_append.mp h with h | h
    · simp at h
    · exact toString_nat_no_pipe uid h
  have h2 : '|' ∉ ("EUID=".data ++ (toString uid).data) := by
    intro h
    rcases List.mem_append.mp h with h | h
    · simp at h
    · exact toString_nat_no_pipe uid h
  have h3 : (⟨"UID=".data ++ (toString uid).data⟩ : String) = "UID=" ++ toString uid :=
    strMkAppend "UID=" (toString uid)
  have h4 : (⟨"EUID=".data ++ (toString uid).data⟩ : String) = "EUID=" ++ toString uid :=
    strMkAppend "EUID=" (toString uid)
  simp only [splitChar, hdata, splitChGo_append_sep, splitChGo_no_sep '|' _ [] h1,
    splitChGo_no_sep '|' _ [] h2, splitChGo_no_sep '|' "PS1=$ ".data []
      (by intro h; simp at h)]
  simp only [List.reverse_nil, List.nil_append, List.map_append, List.map_cons, List.map_nil,
    strMkData, h3, h4]
  rfl

/-! ### Space-led strings and the optional-bind contributions -/

theorem spLed_strict_append {x : String} (y : String) (hx : x.data.head? = some ' ') :
    (x ++ y).data.head? = some ' ' := by
  rcases hl : x.data with _ | ⟨c, l⟩
  · simp [hl] at hx
  · simp [hl] at hx
    simp [String.data_append, hl, hx]

theorem spLed_append_strict {x : String} (y : String) (hx : spLed x)
    (hy : y.data.head? = some ' ') : (x ++ y).data.head? = some ' ' := by
  rcases hx with hx | hx
  · subst hx
    have : ("" ++ y).data = y.data := by simp [String.data_append]
    simp [this, hy]
  · exact spLed_strict_append y hx

theorem spLed_append {x y : String} (hx : spLed x) (hy : spLed y) : spLed (x ++ y) := by
  rcases hx with hx | hx
  · subst hx
    rcases hy with hy | hy
    · subst hy
      left
      rfl
    · right
      have : ("" ++ y).data = y.data := by simp [String.data_append]
      simp [this, hy]
  · right
    exact spLed_strict_append y hx

theorem spLed_ite {c : Prop} [Decidable c] {x : String} (hx : spLed x) :
    spLed (if c then x else "") := by
  by_cases h : c
  · simpa [h] using hx
  · simp [h, spLed]

theorem spLed_foldl_proot (dirs : List String) :
    ∀ init : String, spLed init →
      spLed (dirs.foldl (fun s d => s ++ " --bind=" ++ d) init) := by
  induction dirs with
  | nil => intro init h; simpa using h
  | cons d dirs ih =>
    intro init h
    refine ih _ ?_
    right
    exact spLed_strict_append d (spLed_append_strict " --bind=" h rfl)

theorem spLed_foldl_bwrap (dirs : List String) :
    ∀ init : String, spLed init →
      spLed (dirs.foldl (fun s d => s ++ " --ro-bind " ++ d ++ " " ++ d) init) := by
  induction dirs with
  | nil => intro init h; simpa using h
  | cons d dirs ih =>
    intro init h
    refine ih _ ?_
    right
    exact spLed_strict_append d
      (spLed_strict_append " " (spLed_strict_append d (spLed_append_strict " --ro-bind " h rfl)))

theorem spLed_extra_binds_proot (host : HostState) : spLed (extra_binds_proot host) := by
  unfold extra_binds_proot
  exact spLed_append
    (spLed_append (spLed_append (spLed_append (spLed_append (spLed_append
      (spLed_ite (Or.inr rfl)) (spLed_ite (Or.inr rfl))) (spLed_ite (Or.inr rfl)))
      (spLed_ite (Or.inr rfl))) (spLed_ite (Or.inr rfl))) (spLed_ite (Or.inr rfl)))
    (spLed_foldl_proot host.iconCursorDirs "" (Or.inl rfl))

theorem spLed_extra_binds_bwrap (host : HostState) : spLed (extra_binds_bwrap host) := by
  unfold extra_binds_bwrap
  exact spLed_append
    (spLed_append (spLed_append (spLed_append (spLed_append (spLed_append
      (spLed_ite (Or.inr rfl)) (spLed_ite (Or.inr rfl))) (spLed_ite (Or.inr rfl)))
      (spLed_ite (Or.inr rfl))) (spLed_ite (Or.inr rfl))) (spLed_ite (Or.inr rfl)))
    (spLed_foldl_bwrap host.iconCursorDirs "" (Or.inl rfl))

/-- Appending a space-led string only appends tokens. -/
theorem splitWS_append_spLed (a : String) {b : String} (hb : spLed b) :
    ∃ ts, splitWS (a ++ b) = splitWS a ++ ts := by
  rcases hb with hb | hb
  · subst hb
    exact ⟨[], by simp [splitWS_congr (show (a ++ "").data = a.data by simp [String.data_append])]⟩
  · rcases hl : b.data with _ | ⟨c, l⟩
    · simp [hl] at hb
    · simp [hl] at hb
      subst hb
    
      refine ⟨(wordsGo l []).map fun w => (⟨w⟩ : String), ?_⟩
      have hd : (a ++ b).data = a.data ++ ' ' :: l := by simp [String.data_append, hl]
      simp [splitWS, hd, wordsGo_split ' ' rfl a.data l]

/-! ### Token lists of the composed option strings -/

theorem white_free_append {x y : String}
    (hx : ∀ c ∈ x.data, c.isWhitespace = false) (hy : ∀ c ∈ y.data, c.isWhitespace = false) :
    ∀ c ∈ (x ++ y).data, c.isWhitespace = false := by
  intro c hc
  rw [String.data_append] at hc
  rcases List.mem_append.mp hc with h | h
  · exact hx c h
  · exact hy c h

theorem append_ne_empty_left {x : String} (y : String) (hx : x ≠ "") : x ++ y ≠ "" := by
  intro h
  apply data_ne_nil_of_ne_empty hx
  have hd := congrArg String.data h
  rw [String.data_append] at hd
  exact (List.append_eq_nil.mp hd).1

/-- Token list of the ptrace variant with empty extra binds and skipped
optional binds: the base tokens, then the two self-referential
passwd/group binds exactly when `no_group` is `true`. -/
theorem proot_toks (r : String) (hr : r ≠ "") (hrw : ∀ c ∈ r.data, c.isWhitespace = false)
    (g : Bool) (host : HostState) :
    splitWS (Command.build_proot_options r "" true g host) =
      ["-R", r, "--bind=/media", "--bind=/mnt"] ++ (if g then prootGroupToks r else []) := by
  have hb : ∀ c ∈ ("--bind=" : String).data, c.isWhitespace = false := by decide
  have hg1 : ∀ c ∈ ("/etc/group:/etc/group" : String).data, c.isWhitespace = false := by decide
  have hg2 : ∀ c ∈ ("/etc/passwd:/etc/passwd" : String).data, c.isWhitespace = false := by decide
  have hw1 : splitWS ("--bind=" ++ r ++ "/etc/group:/etc/group") =
      ["--bind=" ++ r ++ "/etc/group:/etc/group"] :=
    splitWS_single _ (append_ne_empty_left _ (append_ne_empty_left _ (by decide)))
      (white_free_append (white_free_append hb hrw) hg1)
  have hw2 : splitWS ("--bind=" ++ r ++ "/etc/passwd:/etc/passwd") =
      ["--bind=" ++ r ++ "/etc/passwd:/etc/passwd"] :=
    splitWS_single _ (append_ne_empty_left _ (append_ne_empty_left _ (by decide)))
      (white_free_append (white_free_append hb hrw) hg2)
  have hR : splitWS "-R" = ["-R"] := by decide
  have hM : splitWS "--bind=/media --bind=/mnt" = ["--bind=/media", "--bind=/mnt"] := by decide
  cases g with
  | false =>
    show splitWS ("-R" ++ " " ++ r ++ " " ++ "--bind=/media --bind=/mnt" ++ " " ++ "") =
      ["-R", r, "--bind=/media", "--bind=/mnt"] ++ []
    repeat rw [splitWS_append_sp]
    rw [hR, hM, splitWS_single r hr hrw]
    simp [splitWS_empty]
  | true =>
    show splitWS ("-R" ++ " " ++ r ++ " " ++ "--bind=/media --bind=/mnt" ++ " " ++ "" ++ " " ++
        ("--bind=" ++ r ++ "/etc/group:/etc/group") ++ " " ++
        ("--bind=" ++ r ++ "/etc/passwd:/etc/passwd")) =
      ["-R", r, "--bind=/media", "--bind=/mnt"] ++ prootGroupToks r
    repeat rw [splitWS_append_sp]
    rw [hR, hM, splitWS_single r hr hrw, hw1, hw2]
    simp [splitWS_empty, prootGroupToks]

theorem bwrap_lit_mid : splitWS "/ --die-with-parent --ro-bind-try /etc/host.conf /etc/host.conf --ro-bind-try /etc/hosts /etc/hosts --ro-bind-try /etc/hosts.equiv /etc/hosts.equiv --ro-bind-try /etc/netgroup /etc/netgroup --ro-bind-try /etc/networks /etc/networks --ro-bind-try /etc/nsswitch.conf /etc/nsswitch.conf --ro-bind-try /etc/resolv.conf /etc/resolv.conf --ro-bind-try /etc/localtime /etc/localtime --dev-bind /dev /dev --ro-bind /sys /sys --bind-try /proc /proc --bind-try /tmp /tmp --bind-try /run /run --ro-bind /var/run/dbus/system_bus_socket /var/run/dbus/system_bus_socket --bind" =
    ["/", "--die-with-parent",
     "--ro-bind-try", "/etc/host.conf", "/etc/host.conf",
     "--ro-bind-try", "/etc/hosts", "/etc/hosts",
     "--ro-bind-try", "/etc/hosts.equiv", "/etc/hosts.equiv",
     "--ro-bind-try", "/etc/netgroup", "/etc/netgroup",
     "--ro-bind-try", "/etc/networks", "/etc/networks",
     "--ro-bind-try", "/etc/nsswitch.conf", "/etc/nsswitch.conf",
     "--ro-bind-try", "/etc/resolv.conf", "/etc/resolv.conf",
     "--ro-bind-try", "/etc/localtime", "/etc/localtime",
     "--dev-bind", "/dev", "/dev", "--ro-bind", "/sys", "/sys",
     "--bind-try", "/proc", "/proc", "--bind-try", "/tmp", "/tmp",
     "--bind-try", "/run", "/run",
     "--ro-bind", "/var/run/dbus/system_bus_socket", "/var/run/dbus/system_bus_socket",
     "--bind"] := by decide

theorem bwrap_lit_pre : splitWS "--unshare-user --share-net --bind" =
    ["--unshare-user", "--share-net", "--bind"] := by decide

theorem bwrap_lit_media : splitWS "--bind /media /media --bind /mnt /mnt" =
    ["--bind", "/media", "/media", "--bind", "/mnt", "/mnt"] := by decide

theorem bwrap_lit_setenv : splitWS "--setenv PATH \"/bin:/sbin:/usr/bin:/usr/sbin:/usr/libexec\"" =
    ["--setenv", "PATH", quotedPathToken] := by decide

theorem bwrap_lit_group :
    splitWS "--ro-bind-try /etc/passwd /etc/passwd --ro-bind-try /etc/group /etc/group" =
      bwrapGroupToks := by decide

/-- Token list of the namespace variant with empty extra binds and skipped
optional binds: the base tokens, then the host passwd/group read-only
binds exactly when `no_group` is `false`. -/
theorem bwrap_toks (r a : String) (hr : r ≠ "") (hrw : ∀ c ∈ r.data, c.isWhitespace = false)
    (ha : a ≠ "") (haw : ∀ c ∈ a.data, c.isWhitespace = false) (g : Bool) (host : HostState) :
    splitWS (Command.bwrap_options_str r "" true g host a) =
      bwrapBaseToks r a ++ (if g then [] else bwrapGroupToks) := by
  cases g with
  | false =>
    show splitWS ("--unshare-user --share-net --bind" ++ " " ++ r ++ " " ++
        "/ --die-with-parent --ro-bind-try /etc/host.conf /etc/host.conf --ro-bind-try /etc/hosts /etc/hosts --ro-bind-try /etc/hosts.equiv /etc/hosts.equiv --ro-bind-try /etc/netgroup /etc/netgroup --ro-bind-try /etc/networks /etc/networks --ro-bind-try /etc/nsswitch.conf /etc/nsswitch.conf --ro-bind-try /etc/resolv.conf /etc/resolv.conf --ro-bind-try /etc/localtime /etc/localtime --dev-bind /dev /dev --ro-bind /sys /sys --bind-try /proc /proc --bind-try /tmp /tmp --bind-try /run /run --ro-bind /var/run/dbus/system_bus_socket /var/run/dbus/system_bus_socket --bind" ++
        " " ++ a ++ " " ++ a ++ " " ++ "--bind /media /media --bind /mnt /mnt" ++ " " ++ "" ++ " " ++
        "--setenv PATH \"/bin:/sbin:/usr/bin:/usr/sbin:/usr/libexec\"" ++ " " ++
        "--ro-bind-try /etc/passwd /etc/passwd --ro-bind-try /etc/group /etc/group") =
      bwrapBaseToks r a ++ bwrapGroupToks
    repeat rw [splitWS_append_sp]
    rw [bwrap_lit_pre, bwrap_lit_mid, bwrap_lit_media, bwrap_lit_setenv, bwrap_lit_group,
      splitWS_single r hr hrw, splitWS_single a ha haw]
    simp [splitWS_empty, bwrapBaseToks]
  | true =>
    show splitWS ("--unshare-user --share-net --bind" ++ " " ++ r ++ " " ++
        "/ --die-with-parent --ro-bind-try /etc/host.conf /etc/host.conf --ro-bind-try /etc/hosts /etc/hosts --ro-bind-try /etc/hosts.equiv /etc/hosts.equiv --ro-bind-try /etc/netgroup /etc/netgroup --ro-bind-try /etc/networks /etc/networks --ro-bind-try /etc/nsswitch.conf /etc/nsswitch.conf --ro-bind-try /etc/resolv.conf /etc/resolv.conf --ro-bind-try /etc/localtime /etc/localtime --dev-bind /dev /dev --ro-bind /sys /sys --bind-try /proc /proc --bind-try /tmp /tmp --bind-try /run /run --ro-bind /var/run/dbus/system_bus_socket /var/run/dbus/system_bus_socket --bind" ++
        " " ++ a ++ " " ++ a ++ " " ++ "--bind /media /media --bind /mnt /mnt" ++ " " ++ "" ++ " " ++
        "--setenv PATH \"/bin:/sbin:/usr/bin:/usr/sbin:/usr/libexec\"") =
      bwrapBaseToks r a ++ []
    repeat rw [splitWS_append_sp]
    rw [bwrap_lit_pre, bwrap_lit_mid, bwrap_lit_media, bwrap_lit_setenv,
      splitWS_single r hr hrw, splitWS_single a ha haw]
    simp [splitWS_empty, bwrapBaseToks]

/-- General decomposition of the namespace variant's token list: whatever
the flags and host state, the tokens are some prefix, then the
whitespace-split tokens of the raw `extraBindSpec`, then the `--setenv
PATH` triple with the quoted token, then some suffix. -/
theorem bwrap_toks_decomp (r ab a : String) (e g : Bool) (host : HostState) :
    ∃ pre post, splitWS (Command.bwrap_options_str r ab e g host a) =
      pre ++ splitWS ab ++ (["--setenv", "PATH", quotedPathToken] ++ post) := by
  cases e with
  | true =>
    cases g with
    | true =>
      refine ⟨splitWS "--unshare-user --share-net --bind" ++ splitWS r ++
        splitWS "/ --die-with-parent --ro-bind-try /etc/host.conf /etc/host.conf --ro-bind-try /etc/hosts /etc/hosts --ro-bind-try /etc/hosts.equiv /etc/hosts.equiv --ro-bind-try /etc/netgroup /etc/netgroup --ro-bind-try /etc/networks /etc/networks --ro-bind-try /etc/nsswitch.conf /etc/nsswitch.conf --ro-bind-try /etc/resolv.conf /etc/resolv.conf --ro-bind-try /etc/localtime /etc/localtime --dev-bind /dev /dev --ro-bind /sys /sys --bind-try /proc /proc --bind-try /tmp /tmp --bind-try /run /run --ro-bind /var/run/dbus/system_bus_socket /var/run/dbus/system_bus_socket --bind" ++
        splitWS a ++ splitWS a ++ splitWS "--bind /media /media --bind /mnt /mnt", [], ?_⟩
      show splitWS ("--unshare-user --share-net --bind" ++ " " ++ r ++ " " ++
        "/ --die-with-parent --ro-bind-try /etc/host.conf /etc/host.conf --ro-bind-try /etc/hosts /etc/hosts --ro-bind-try /etc/hosts.equiv /etc/hosts.equiv --ro-bind-try /etc/netgroup /etc/netgroup --ro-bind-try /etc/networks /etc/networks --ro-bind-try /etc/nsswitch.conf /etc/nsswitch.conf --ro-bind-try /etc/resolv.conf /etc/resolv.conf --ro-bind-try /etc/localtime /etc/localtime --dev-bind /dev /dev --ro-bind /sys /sys --bind-try /proc /proc --bind-try /tmp /tmp --bind-try /run /run --ro-bind /var/run/dbus/system_bus_socket /var/run/dbus/system_bus_socket --bind" ++
        " " ++ a ++ " " ++ a ++ " " ++ "--bind /media /media --bind /mnt /mnt" ++ " " ++ ab ++ " " ++
        "--setenv PATH \"/bin:/sbin:/usr/bin:/usr/sbin:/usr/libexec\"") = _
      repeat rw [splitWS_append_sp]
      rw [bwrap_lit_setenv]
      simp [List.append_assoc]
    | false =>
      refine ⟨splitWS "--unshare-user --share-net --bind" ++ splitWS r ++
        splitWS "/ --die-with-parent --ro-bind-try /etc/host.conf /etc/host.conf --ro-bind-try /etc/hosts /etc/hosts --ro-bind-try /etc/hosts.equiv /etc/hosts.equiv --ro-bind-try /etc/netgroup /etc/netgroup --ro-bind-try /etc/networks /etc/networks --ro-bind-try /etc/nsswitch.conf /etc/nsswitch.conf --ro-bind-try /etc/resolv.conf /etc/resolv.conf --ro-bind-try /etc/localtime /etc/localtime --dev-bind /dev /dev --ro-bind /sys /sys --bind-try /proc /proc --bind-try /tmp /tmp --bind-try /run /run --ro-bind /var/run/dbus/system_bus_socket /var/run/dbus/system_bus_socket --bind" ++
        splitWS a ++ splitWS a ++ splitWS "--bind /media /media --bind /mnt /mnt", bwrapGroupToks, ?_⟩
      show splitWS ("--unshare-user --share-net --bind" ++ " " ++ r ++ " " ++
        "/ --die-with-parent --ro-bind-try /etc/host.conf /etc/host.conf --ro-bind-try /etc/hosts /etc/hosts --ro-bind-try /etc/hosts.equiv /etc/hosts.equiv --ro-bind-try /etc/netgroup /etc/netgroup --ro-bind-try /etc/networks /etc/networks --ro-bind-try /etc/nsswitch.conf /etc/nsswitch.conf --ro-bind-try /etc/resolv.conf /etc/resolv.conf --ro-bind-try /etc/localtime /etc/localtime --dev-bind /dev /dev --ro-bind /sys /sys --bind-try /proc /proc --bind-try /tmp /tmp --bind-try /run /run --ro-bind /var/run/dbus/system_bus_socket /var/run/dbus/system_bus_socket --bind" ++
        " " ++ a ++ " " ++ a ++ " " ++ "--bind /media /media --bind /mnt /mnt" ++ " " ++ ab ++ " " ++
        "--setenv PATH \"/bin:/sbin:/usr/bin:/usr/sbin:/usr/libexec\"" ++ " " ++
        "--ro-bind-try /etc/passwd /etc/passwd --ro-bind-try /etc/group /etc/group") = _
      repeat rw [splitWS_append_sp]
      rw [bwrap_lit_setenv, bwrap_lit_group]
      simp [List.append_assoc]
  | false =>
    cases g with
    | true =>
      obtain ⟨ts, hts⟩ := splitWS_append_spLed ("--unshare-user --share-net --bind" ++ " " ++ r ++ " " ++
        "/ --die-with-parent --ro-bind-try /etc/host.conf /etc/host.conf --ro-bind-try /etc/hosts /etc/hosts --ro-bind-try /etc/hosts.equiv /etc/hosts.equiv --ro-bind-try /etc/netgroup /etc/netgroup --ro-bind-try /etc/networks /etc/networks --ro-bind-try /etc/nsswitch.conf /etc/nsswitch.conf --ro-bind-try /etc/resolv.conf /etc/resolv.conf --ro-bind-try /etc/localtime /etc/localtime --dev-bind /dev /dev --ro-bind /sys /sys --bind-try /proc /proc --bind-try /tmp /tmp --bind-try /run /run --ro-bind /var/run/dbus/system_bus_socket /var/run/dbus/system_bus_socket --bind" ++
        " " ++ a ++ " " ++ a ++ " " ++ "--bind /media /media --bind /mnt /mnt" ++ " " ++ ab ++ " " ++
        "--setenv PATH \"/bin:/sbin:/usr/bin:/usr/sbin:/usr/libexec\"")
        (spLed_extra_binds_bwrap host)
      refine ⟨splitWS "--unshare-user --share-net --bind" ++ splitWS r ++
        splitWS "/ --die-with-parent --ro-bind-try /etc/host.conf /etc/host.conf --ro-bind-try /etc/hosts /etc/hosts --ro-bind-try /etc/hosts.equiv /etc/hosts.equiv --ro-bind-try /etc/netgroup /etc/netgroup --ro-bind-try /etc/networks /etc/networks --ro-bind-try /etc/nsswitch.conf /etc/nsswitch.conf --ro-bind-try /etc/resolv.conf /etc/resolv.conf --ro-bind-try /etc/localtime /etc/localtime --dev-bind /dev /dev --ro-bind /sys /sys --bind-try /proc /proc --bind-try /tmp /tmp --bind-try /run /run --ro-bind /var/run/dbus/system_bus_socket /var/run/dbus/system_bus_socket --bind" ++
        splitWS a ++ splitWS a ++ splitWS "--bind /media /media --bind /mnt /mnt", ts, ?_⟩
      refine Eq.trans hts ?_
      repeat rw [splitWS_append_sp]
      rw [bwrap_lit_setenv]
      simp [List.append_assoc]
    | false =>
      obtain ⟨ts, hts⟩ := splitWS_append_spLed ("--unshare-user --share-net --bind" ++ " " ++ r ++ " " ++
        "/ --die-with-parent --ro-bind-try /etc/host.conf /etc/host.conf --ro-bind-try /etc/hosts /etc/hosts --ro-bind-try /etc/hosts.equiv /etc/hosts.equiv --ro-bind-try /etc/netgroup /etc/netgroup --ro-bind-try /etc/networks /etc/networks --ro-bind-try /etc/nsswitch.conf /etc/nsswitch.conf --ro-bind-try /etc/resolv.conf /etc/resolv.conf --ro-bind-try /etc/localtime /etc/localtime --dev-bind /dev /dev --ro-bind /sys /sys --bind-try /proc /proc --bind-try /tmp /tmp --bind-try /run /run --ro-bind /var/run/dbus/system_bus_socket /var/run/dbus/system_bus_socket --bind" ++
        " " ++ a ++ " " ++ a ++ " " ++ "--bind /media /media --bind /mnt /mnt" ++ " " ++ ab ++ " " ++
        "--setenv PATH \"/bin:/sbin:/usr/bin:/usr/sbin:/usr/libexec\"" ++ " " ++
        "--ro-bind-try /etc/passwd /etc/passwd --ro-bind-try /etc/group /etc/group")
        (spLed_extra_binds_bwrap host)
      refine ⟨splitWS "--unshare-user --share-net --bind" ++ splitWS r ++
        splitWS "/ --die-with-parent --ro-bind-try /etc/host.conf /etc/host.conf --ro-bind-try /etc/hosts /etc/hosts --ro-bind-try /etc/hosts.equiv /etc/hosts.equiv --ro-bind-try /etc/netgroup /etc/netgroup --ro-bind-try /etc/networks /etc/networks --ro-bind-try /etc/nsswitch.conf /etc/nsswitch.conf --ro-bind-try /etc/resolv.conf /etc/resolv.conf --ro-bind-try /etc/localtime /etc/localtime --dev-bind /dev /dev --ro-bind /sys /sys --bind-try /proc /proc --bind-try /tmp /tmp --bind-try /run /run --ro-bind /var/run/dbus/system_bus_socket /var/run/dbus/system_bus_socket --bind" ++
        splitWS a ++ splitWS a ++ splitWS "--bind /media /media --bind /mnt /mnt",
        bwrapGroupToks ++ ts, ?_⟩
      refine Eq.trans hts ?_
      repeat rw [splitWS_append_sp]
      rw [bwrap_lit_setenv, bwrap_lit_group]
      simp [List.append_assoc]

/-! ## Claim C1 -/

/-- Claim C1, counterexample: the claim asserts the ptrace plan contains
the self-referential passwd/group binds exactly when `noGroupMapping` is
false. At rootfs `/srv/alpine` with `noGroupMapping = false` the bind
token is absent, and with `noGroupMapping = true` it is present: the code
gates the ptrace binds by `no_group = true` (`command.rs` line 95), the
opposite polarity. -/
theorem C1_counterexample :
    "--bind=/srv/alpine/etc/passwd:/etc/passwd" ∉
      splitWS (Command.build_proot_options "/srv/alpine" "" true false emptyHost) ∧
    "--bind=/srv/alpine/etc/passwd:/etc/passwd" ∈
      splitWS (Command.build_proot_options "/srv/alpine" "" true true emptyHost) := by
  decide

/-- Claim C1, amended: the flag gates the two variants in opposite
directions. In plans whose other inputs do not themselves inject the
tokens (empty `extraBindSpec`, optional binds skipped, whitespace-free
rootfs and home paths distinct from `/etc/passwd`), the ptrace plan
contains the self-referential guest passwd/group binds if and only if
`noGroupMapping` is TRUE, while the namespace plan contains the host
passwd/group read-only binds if and only if `noGroupMapping` is FALSE. -/
theorem C1_amended (r a : String) (g : Bool) (host hostB : HostState)
    (hr : r ≠ "") (hrw : ∀ c ∈ r.data, c.isWhitespace = false)
    (ha : a ≠ "") (haw : ∀ c ∈ a.data, c.isWhitespace = false)
    (hra : r ≠ "/etc/passwd") (haa : a ≠ "/etc/passwd") :
    ((prootGroupToks r <:+: splitWS (Command.build_proot_options r "" true g host)) ↔ g = true) ∧
    ((bwrapGroupToks <:+: splitWS (Command.bwrap_options_str r "" true g hostB a)) ↔ g = false) := by
  have l7 : ("--bind=" : String).length = 7 := rfl
  have l21 : ("/etc/group:/etc/group" : String).length = 21 := rfl
  have l2 : ("-R" : String).length = 2 := rfl
  have l13 : ("--bind=/media" : String).length = 13 := rfl
  have l11 : ("--bind=/mnt" : String).length = 11 := rfl
  rw [proot_toks r hr hrw g host, bwrap_toks r a hr hrw ha haw g hostB]
  cases g with
  | true =>
    simp only [if_true, List.append_nil]
    refine ⟨⟨fun _ => trivial, fun _ => ⟨["-R", r, "--bind=/media", "--bind=/mnt"], [], by simp⟩⟩,
      ⟨fun h => ?_, fun h => by simp at h⟩⟩
    exfalso
    have hm := h.subset (show "/etc/passwd" ∈ bwrapGroupToks by simp [bwrapGroupToks])
    simp [bwrapBaseToks, quotedPathToken] at hm
    rcases hm with hm | hm
    · exact hra hm.symm
    · exact haa hm.symm
  | false =>
    simp only [if_false, List.append_nil, Bool.false_eq_true]
    refine ⟨⟨fun h => ?_, fun h => by simp at h⟩,
      ⟨fun _ => trivial, fun _ => ⟨bwrapBaseToks r a, [], by simp⟩⟩⟩
    exfalso
    have hm := h.subset
      (show ("--bind=" ++ r ++ "/etc/group:/etc/group") ∈ prootGroupToks r by
        simp [prootGroupToks])
    simp at hm
    rcases hm with hm | hm | hm | hm
    · have hl := congrArg String.length hm
      rw [String.length_append, String.length_append, l7, l21, l2] at hl
      omega
    · have hl := congrArg String.length hm
      rw [String.length_append, String.length_append, l7, l21] at hl
      omega
    · have hl := congrArg String.length hm
      rw [String.length_append, String.length_append, l7, l21, l13] at hl
      omega
    · have hl := congrArg String.length hm
      rw [String.length_append, String.length_append, l7, l21, l11] at hl
      omega

/-- Claim C1, witness for the amended theorem at concrete inputs. -/
theorem C1_witness :
    (prootGroupToks "/srv/alpine" <:+:
      splitWS (Command.build_proot_options "/srv/alpine" "" true true emptyHost)) ∧
    (bwrapGroupToks <:+:
      splitWS (Command.bwrap_options_str "/srv/alpine" "" true false emptyHost "/home/u")) :=
  ⟨(C1_amended "/srv/alpine" "/home/u" true emptyHost emptyHost (by decide) (by decide)
      (by decide) (by decide) (by decide) (by decide)).1.mpr rfl,
   (C1_amended "/srv/alpine" "/home/u" false emptyHost emptyHost (by decide) (by decide)
      (by decide) (by decide) (by decide) (by decide)).2.mpr rfl⟩

/-! ## Claim C2 -/

/-- Claim C2, counterexample: with `USER`/`LOGNAME` unset the code encodes
the fallback uid 1000 (`command.rs` 246-248) whatever the operating
system's real uid is; for a caller whose real uid is 1234 the claimed
token `UID=1234` is absent from the composed argv. The engine never
consults the operating system's identity query at all. -/
theorem C2_counterexample :
    ¬ specNonRootEncodesRealUid "proot" 1234 env0
        (Command.build_proot_options "/srv/alpine" "" true false emptyHost) := by
  unfold specNonRootEncodesRealUid
  decide

/-- Claim C2, amended: with `useRoot = true` the identity token is as
claimed (proot: `-0` plus `USER=root`, `LOGNAME=root`, `UID=0`, `EUID=0`
environment entries; bwrap: the `--uid 0 --gid 0 --setenv USER root
--setenv LOGNAME root` block). With `useRoot = false` the argv carries
`UID=<u>` and `EUID=<u>` where `u` is NOT the operating system's real uid
but `Command.get_uid_from_passwd`: the uid parsed out of `/etc/passwd`
for the `USER`/`LOGNAME` name with fallback 1000; no gid is encoded and
no remap arguments are added. -/
theorem C2_amended (opts new_cmd : String) (env : EnvState) :
    ("-0" ∈ assembleFullArgs "proot" opts true (Command.get_uid_from_passwd env) new_cmd ∧
     "USER=root" ∈ assembleFullArgs "proot" opts true (Command.get_uid_from_passwd env) new_cmd ∧
     "LOGNAME=root" ∈ assembleFullArgs "proot" opts true (Command.get_uid_from_passwd env) new_cmd ∧
     "UID=0" ∈ assembleFullArgs "proot" opts true (Command.get_uid_from_passwd env) new_cmd ∧
     "EUID=0" ∈ assembleFullArgs "proot" opts true (Command.get_uid_from_passwd env) new_cmd) ∧
    (["--uid", "0", "--gid", "0", "--setenv", "USER", "root", "--setenv", "LOGNAME", "root"] <:+:
      assembleFullArgs "bwrap" opts true (Command.get_uid_from_passwd env) new_cmd) ∧
    (("UID=" ++ toString (Command.get_uid_from_passwd env)) ∈
       assembleFullArgs "proot" opts false (Command.get_uid_from_passwd env) new_cmd ∧
     ("EUID=" ++ toString (Command.get_uid_from_passwd env)) ∈
       assembleFullArgs "proot" opts false (Command.get_uid_from_passwd env) new_cmd ∧
     ("UID=" ++ toString (Command.get_uid_from_passwd env)) ∈
       assembleFullArgs "bwrap" opts false (Command.get_uid_from_passwd env) new_cmd ∧
     ("EUID=" ++ toString (Command.get_uid_from_passwd env)) ∈
       assembleFullArgs "bwrap" opts false (Command.get_uid_from_passwd env) new_cmd) ∧
    (rootExtraArgs "proot" false = [] ∧ rootExtraArgs "bwrap" false = []) := by
  have e1 : rootExtraArgs "proot" true = ["-0"] := by decide
  have e2 : splitChar '|' (identityStr "proot" true (Command.get_uid_from_passwd env)) =
      ["PS1=# ", "USER=root", "LOGNAME=root", "UID=0", "EUID=0"] := by
    rw [show identityStr "proot" true (Command.get_uid_from_passwd env) =
      "PS1=# |USER=root|LOGNAME=root|UID=0|EUID=0" from rfl]
    decide
  have e3 : rootExtraArgs "bwrap" true =
      ["--uid", "0", "--gid", "0", "--setenv", "USER", "root", "--setenv", "LOGNAME", "root"] := by
    decide
  refine ⟨⟨?_, ?_, ?_, ?_, ?_⟩, ?_, ⟨?_, ?_, ?_, ?_⟩, by decide, by decide⟩
  · simp [assembleFullArgs, e1, e2]
  · simp [assembleFullArgs, e1, e2]
  · simp [assembleFullArgs, e1, e2]
  · simp [assembleFullArgs, e1, e2]
  · simp [assembleFullArgs, e1, e2]
  · refine ⟨splitWS opts, ?_, ?_⟩
    · exact ["env"] ++ splitChar '|' (identityStr "bwrap" true (Command.get_uid_from_passwd env)) ++
        ["SHELL=/bin/sh", "PATH=/bin:/sbin:/usr/bin:/usr/sbin:/usr/libexec", "/bin/sh"] ++
        (if new_cmd = "" then [] else ["-c", new_cmd])
    · simp [assembleFullArgs, e3]
  · simp [assembleFullArgs, splitChar_identityStr_nonroot]
  · simp [assembleFullArgs, splitChar_identityStr_nonroot]
  · simp [assembleFullArgs, splitChar_identityStr_nonroot]
  · simp [assembleFullArgs, splitChar_identityStr_nonroot]

/-! ## Claim C3 -/

/-- Claim C3, counterexample: on a rootfs where Mount Table Repair fails
(a regular file at `etc/mtab` that cannot be removed), the namespace
builder does not proceed — the `.unwrap()` at `command.rs` line 191
panics, so no plan is built and no process is launched, contradicting the
claim that the failure is non-fatal. -/
theorem C3_counterexample :
    Command.build_bwrap_options "/srv/alpine" "" true false emptyHost (some "/home/u") stuckFs =
      none ∧
    Command.run "bwrap" "alpack" true "/srv/alpine" none none false true false env0 emptyHost
        (some "/home/u") stuckFs (.ok "/usr/bin/bwrap") (.ok (some 0)) =
      { outcome := .panicked, planBuilt := false, argv := none, spawned := false } := by
  decide

/-- Claim C3, amended: in the namespace variant (the only one that invokes
Mount Table Repair), plan construction aborts by panic exactly when the
repair returns an error, and proceeds with the repaired state exactly when
it succeeds; the failure is logged but is fatal, not non-fatal. -/
theorem C3_amended (r ab : String) (e g : Bool) (host : HostState) (a : String) (fs : FsState) :
    (Command.build_bwrap_options r ab e g host (some a) fs = none ↔
      (Command.fix_mtab_symlink fs).2 = false) ∧
    ((Command.fix_mtab_symlink fs).2 = true →
      Command.build_bwrap_options r ab e g host (some a) fs =
        some (Command.bwrap_options_str r ab e g host a, (Command.fix_mtab_symlink fs).1)) := by
  rcases h : Command.fix_mtab_symlink fs with ⟨fs2, ok⟩
  cases ok <;> simp [Command.build_bwrap_options, h]

/-- Claim C3, witness: on a repairable rootfs the builder does proceed. -/
theorem C3_witness :
    Command.build_bwrap_options "/srv/alpine" "" true false emptyHost (some "/home/u") okFs =
      some (Command.bwrap_options_str "/srv/alpine" "" true false emptyHost "/home/u",
        (Command.fix_mtab_symlink okFs).1) :=
  (C3_amended "/srv/alpine" "" true false emptyHost "/home/u" okFs).2 (by decide)

/-! ## Claim C4 -/

/-- Claim C4: when the rootfs path is not an existing directory,
`Command::run` returns the fatal rootfs-missing error before building any
plan and before spawning anything (`command.rs` line 18 precedes all plan
construction), the message contains the expected path, and it contains
the remediation hint; no substitute rootfs is used. -/
theorem C4_rootfs_missing (comm appName r : String) (ab cmd : Option String)
    (ur ieb ng : Bool) (env : EnvState) (host : HostState) (home : Option String) (fs : FsState)
    (resolveRes : Except String String) (spawnRes : Except String (Option Int)) :
    Command.run comm appName false r ab cmd ur ieb ng env host home fs resolveRes spawnRes =
      { outcome := .fatal (rootfs_missing_msg appName r), planBuilt := false, argv := none,
        spawned := false } ∧
    r.data <:+: (rootfs_missing_msg appName r).data ∧
    "Please run the following command to set it up".data <:+: (rootfs_missing_msg appName r).data := by
  refine ⟨by simp [Command.run, check_rootfs_exists], ?_, ?_⟩
  · refine ⟨(SEPARATOR ++ "\n  Error: rootfs directory not found.\n\n  Expected location:\n    -> ").data,
      ("\n\n  Please run the following command to set it up:\n" ++
        get_cmd_box ("$ " ++ appName ++ " setup") (some 2) none ++ "\n" ++ SEPARATOR).data, ?_⟩
    simp [rootfs_missing_msg, String.data_append, List.append_assoc]
  · have h1 : ("Please run the following command to set it up" : String).data <:+:
        ("\n\n  Please run the following command to set it up:\n" : String).data := by decide
    have h2 : ("\n\n  Please run the following command to set it up:\n" : String).data <:+:
        (rootfs_missing_msg appName r).data := by
      refine ⟨(SEPARATOR ++ "\n  Error: rootfs directory not found.\n\n  Expected location:\n    -> " ++ r).data,
        (get_cmd_box ("$ " ++ appName ++ " setup") (some 2) none ++ "\n" ++ SEPARATOR).data, ?_⟩
      simp [rootfs_missing_msg, String.data_append, List.append_assoc]
    exact h1.trans h2

/-! ## Claim C5 -/

/-- Claim C5: whenever the child is spawned (rootfs present, backend
resolved, a supported backend whose plan construction does not panic),
the engine returns the child's exit code when one is available and the
sentinel `-1` when the status carries no code (`command.rs` line 74). -/
theorem C5_exit_code (comm appName r : String) (ab cmd : Option String) (ur ieb ng : Bool)
    (env : EnvState) (host : HostState) (home : Option String) (fs : FsState)
    (p : String) (code : Option Int)
    (hcomm : comm = "proot" ∨ (comm = "bwrap" ∧
      (Command.build_bwrap_options r (ab.getD "") ieb ng host home fs).isSome = true)) :
    (Command.run comm appName true r ab cmd ur ieb ng env host home fs (.ok p) (.ok code)).outcome =
      .exited (code.getD (-1)) ∧
    (Command.run comm appName true r ab cmd ur ieb ng env host home fs (.ok p) (.ok code)).spawned =
      true ∧
    (∀ k : Int, code = some k →
      (Command.run comm appName true r ab cmd ur ieb ng env host home fs (.ok p)
        (.ok code)).outcome = .exited k) ∧
    (code = none →
      (Command.run comm appName true r ab cmd ur ieb ng env host home fs (.ok p)
        (.ok code)).outcome = .exited (-1)) := by
  rcases hcomm with hc | ⟨hc, hsome⟩
  · subst hc
    refine ⟨by simp [Command.run, check_rootfs_exists, Command.launch], 
      by simp [Command.run, check_rootfs_exists, Command.launch], ?_, ?_⟩
    · intro k hk
      subst hk
      simp [Command.run, check_rootfs_exists, Command.launch]
    · intro hk
      subst hk
      simp [Command.run, check_rootfs_exists, Command.launch]
  · subst hc
    rw [Option.isSome_iff_exists] at hsome
    obtain ⟨⟨opts, fs2⟩, hval⟩ := hsome
    refine ⟨by simp [Command.run, check_rootfs_exists, hval, Command.launch],
      by simp [Command.run, check_rootfs_exists, hval, Command.launch], ?_, ?_⟩
    · intro k hk
      subst hk
      simp [Command.run, check_rootfs_exists, hval, Command.launch]
    · intro hk
      subst hk
      simp [Command.run, check_rootfs_exists, hval, Command.launch]

/-- Claim C5, witness: a proot invocation whose child exits with code 7. -/
theorem C5_witness :
    (Command.run "proot" "alpack" true "/srv/alpine" none none false true false env0 emptyHost
      (some "/home/u") okFs (.ok "/usr/bin/proot") (.ok (some 7))).outcome = .exited 7 :=
  (C5_exit_code "proot" "alpack" "/srv/alpine" none none false true false env0 emptyHost
    (some "/home/u") okFs "/usr/bin/proot" (some 7) (Or.inl rfl)).2.2.1 7 rfl

/-! ## Claim C6 -/

/-- Whenever Mount Table Repair reports success, the mount-table path
holds a symlink to `/proc/self/mounts`. -/
theorem fix_mtab_ok_state (fs : FsState) (h : (Command.fix_mtab_symlink fs).2 = true) :
    (Command.fix_mtab_symlink fs).1.mtab = .symlinkTo desiredMtabTarget := by
  rcases fs with ⟨mtab, pf, rm, sc⟩
  cases mtab with
  | symlinkTo t =>
    by_cases ht : t = desiredMtabTarget
    · simp [Command.fix_mtab_symlink, ht]
    · simp only [Command.fix_mtab_symlink, if_neg ht] at h ⊢
      unfold createMtabSymlink removeMtabEntry at h ⊢
      split_ifs at h ⊢ <;> simp_all
  | unreadableSymlink =>
    simp only [Command.fix_mtab_symlink] at h ⊢
    unfold createMtabSymlink removeMtabEntry at h ⊢
    split_ifs at h ⊢ <;> simp_all
  | regularFile =>
    simp only [Command.fix_mtab_symlink] at h ⊢
    unfold createMtabSymlink removeMtabEntry at h ⊢
    split_ifs at h ⊢ <;> simp_all
  | absent =>
    simp only [Command.fix_mtab_symlink] at h ⊢
    unfold createMtabSymlink at h ⊢
    split_ifs at h ⊢
    simp_all

/-- Claim C6: Mount Table Repair is idempotent. If the mount-table path
already is a symlink to `/proc/self/mounts` the call is a no-op returning
success; whenever a call succeeds, a second consecutive call is a no-op on
the reached state (which holds the desired symlink target) and raises no
error; and on any rootfs content the repair succeeds when the removal and
symlink operations are available. -/
theorem C6_idempotent (fs : FsState) :
    (fs.mtab = .symlinkTo desiredMtabTarget → Command.fix_mtab_symlink fs = (fs, true)) ∧
    ((Command.fix_mtab_symlink fs).2 = true →
      (Command.fix_mtab_symlink fs).1.mtab = .symlinkTo desiredMtabTarget ∧
      Command.fix_mtab_symlink (Command.fix_mtab_symlink fs).1 =
        ((Command.fix_mtab_symlink fs).1, true)) ∧
    (fs.removeFails = false → fs.symlinkCreateFails = false →
      (Command.fix_mtab_symlink fs).2 = true) := by
  have noop : ∀ gs : FsState, gs.mtab = .symlinkTo desiredMtabTarget →
      Command.fix_mtab_symlink gs = (gs, true) := by
    intro gs hgs
    rcases gs with ⟨mtab, pf, rm, sc⟩
    simp only at hgs
    subst hgs
    simp [Command.fix_mtab_symlink]
  refine ⟨noop fs, fun h => ⟨fix_mtab_ok_state fs h, noop _ (fix_mtab_ok_state fs h)⟩, ?_⟩
  intro hrm hsc
  rcases fs with ⟨mtab, pf, rm, sc⟩
  simp only at hrm hsc
  subst hrm
  subst hsc
  cases mtab with
  | symlinkTo t =>
    by_cases ht : t = desiredMtabTarget <;>
      simp [Command.fix_mtab_symlink, ht, createMtabSymlink, removeMtabEntry]
  | unreadableSymlink =>
    simp [Command.fix_mtab_symlink, createMtabSymlink, removeMtabEntry]
  | regularFile =>
    simp [Command.fix_mtab_symlink, createMtabSymlink, removeMtabEntry]
  | absent =>
    simp [Command.fix_mtab_symlink, createMtabSymlink, removeMtabEntry]

/-- Claim C6, witness: starting from a stale regular file on a rootfs with
working filesystem operations, the first repair succeeds and the second is
a no-op on the repaired state. -/
theorem C6_witness :
    (Command.fix_mtab_symlink ⟨.regularFile, false, false, false⟩).2 = true ∧
    Command.fix_mtab_symlink (Command.fix_mtab_symlink ⟨.regularFile, false, false, false⟩).1 =
      ((Command.fix_mtab_symlink ⟨.regularFile, false, false, false⟩).1, true) := by
  have h := C6_idempotent ⟨.regularFile, false, false, false⟩
  have hok := h.2.2 rfl rfl
  exact ⟨hok, (h.2.1 hok).2⟩

/-! ## Claim C7 -/

/-- Claim C7, code evaluation at the failing input: resolution order is as
claimed (`which` hit wins; then the `~/.local/bin` cache; on a non-x86_64
architecture with no binary the resolution fails), but in the download
branch the code applies `make_executable` to the cache DIRECTORY and
returns the directory as the resolved executable path, because
`download_file` returns `save_dest` (`utils.rs` 199, 228) rather than the
saved file; this contradicts the function's own documentation (`utils.rs`
270: "The full path to the resolved executable"). -/
theorem C7_download_returns_directory :
    (verify_and_download_rootfs_command "proot"
        ⟨some "/usr/bin/proot", some "/home/u", true, "aarch64", false, false⟩).result =
      .ok "/usr/bin/proot" ∧
    (verify_and_download_rootfs_command "proot"
        ⟨none, some "/home/u", true, "aarch64", false, false⟩).result =
      .ok "/home/u/.local/bin/proot" ∧
    (verify_and_download_rootfs_command "proot"
        ⟨none, some "/home/u", false, "aarch64", true, true⟩).result =
      .error "proot not found in the system and no binary is available for this architecture" ∧
    (verify_and_download_rootfs_command "proot"
        ⟨none, some "/home/u", false, "x86_64", true, true⟩).result =
      .ok "/home/u/.local/bin" ∧
    (verify_and_download_rootfs_command "proot"
        ⟨none, some "/home/u", false, "x86_64", true, true⟩).chmodTarget =
      some "/home/u/.local/bin" ∧
    concatPath "/home/u/.local/bin" "proot" = "/home/u/.local/bin/proot" ∧
    (verify_and_download_rootfs_command "proot"
        ⟨none, some "/home/u", false, "x86_64", true, true⟩).result ≠
      .ok "/home/u/.local/bin/proot" := by
  decide

/-! ## Claim C8 -/

/-- Claim C8: the namespace builder calls `env::var("HOME").unwrap()`
(`command.rs` line 182), so with `HOME` unset plan construction panics —
the whole invocation dies with no error value and no spawn — even though
`utils::get_safe_home` elsewhere falls back to `"."`. -/
theorem C8_home_unset_panics (r ab : String) (e g : Bool) (host : HostState) (fs : FsState)
    (appName : String) (abo cmd : Option String) (ur ieb ng : Bool) (env : EnvState)
    (p : String) (spawnRes : Except String (Option Int)) :
    Command.build_bwrap_options r ab e g host none fs = none ∧
    get_safe_home none = "." ∧
    Command.run "bwrap" appName true r abo cmd ur ieb ng env host none fs (.ok p) spawnRes =
      { outcome := .panicked, planBuilt := false, argv := none, spawned := false } := by
  refine ⟨rfl, rfl, ?_⟩
  simp [Command.run, check_rootfs_exists, Command.build_bwrap_options]

/-! ## Claim C9 -/

/-- Claim C9: the composed options are tokenized by whitespace splitting
(`command.rs` line 30), so in every namespace plan the `PATH` override is
the literal token `"/bin:...:/usr/libexec"` with the double quotes still
attached (first and last characters), the extra-bind spec contributes its
whitespace-split pieces as consecutive separate tokens, no token contains
whitespace, a spec containing whitespace is never preserved as a single
token, and the option tokens form the leading prefix of the spawned
argv. -/
theorem C9_whitespace_tokenization (r ab a : String) (e g : Bool) (host : HostState)
    (ur : Bool) (uid : Nat) (nc : String) :
    quotedPathToken ∈ splitWS (Command.bwrap_options_str r ab e g host a) ∧
    (quotedPathToken.data.head? = some '"' ∧ quotedPathToken.data.getLast? = some '"') ∧
    splitWS ab <:+: splitWS (Command.bwrap_options_str r ab e g host a) ∧
    (∀ t ∈ splitWS (Command.bwrap_options_str r ab e g host a),
      ∀ c ∈ t.data, c.isWhitespace = false) ∧
    ((∃ c ∈ ab.data, c.isWhitespace = true) →
      ab ∉ splitWS (Command.bwrap_options_str r ab e g host a)) ∧
    splitWS (Command.bwrap_options_str r ab e g host a) <+:
      assembleFullArgs "bwrap" (Command.bwrap_options_str r ab e g host a) ur uid nc := by
  obtain ⟨pre, post, hdec⟩ := bwrap_toks_decomp r ab a e g host
  refine ⟨?_, by decide, ?_, splitWS_white_free _, ?_, ?_⟩
  · rw [hdec]
    simp
  · rw [hdec]
    exact ⟨pre, ["--setenv", "PATH", quotedPathToken] ++ post, by simp [List.append_assoc]⟩
  · rintro ⟨c, hc, hcw⟩ hmem
    have hf := splitWS_white_free (Command.bwrap_options_str r ab e g host a) ab hmem c hc
    rw [hcw] at hf
    exact Bool.noConfusion hf
  · refine ⟨rootExtraArgs "bwrap" ur ++ (["env"] ++
      (splitChar '|' (identityStr "bwrap" ur uid) ++
        (["SHELL=/bin/sh", "PATH=/bin:/sbin:/usr/bin:/usr/sbin:/usr/libexec", "/bin/sh"] ++
          (if nc = "" then [] else ["-c", nc])))), ?_⟩
    simp [assembleFullArgs, List.append_assoc]

/-- Claim C9, witness at a concrete invocation whose extra-bind spec
contains internal whitespace. -/
theorem C9_witness :
    quotedPathToken ∈ splitWS (Command.bwrap_options_str "/srv/alpine" "--ro-bind /opt /opt"
      false false emptyHost "/home/u") ∧
    "--ro-bind /opt /opt" ∉ splitWS (Command.bwrap_options_str "/srv/alpine" "--ro-bind /opt /opt"
      false false emptyHost "/home/u") :=
  ⟨(C9_whitespace_tokenization "/srv/alpine" "--ro-bind /opt /opt" "/home/u" false false emptyHost
      false 1000 "").1,
   (C9_whitespace_tokenization "/srv/alpine" "--ro-bind /opt /opt" "/home/u" false false emptyHost
      false 1000 "").2.2.2.2.1 ⟨' ', by decide, rfl⟩⟩

/-! ## Claim C10 -/

/-- Claim C10: a present-but-empty command line behaves exactly like an
absent one — `cmd.unwrap_or_default()` (`command.rs` line 29) maps both to
`""` and the `-c` argument is only appended for a non-empty command
(lines 62-65), so the whole run trace is identical. -/
theorem C10_empty_cmd_eq_none (comm appName : String) (rid : Bool) (r : String)
    (ab : Option String) (ur ieb ng : Bool) (env : EnvState) (host : HostState)
    (home : Option String) (fs : FsState) (resolveRes : Except String String)
    (spawnRes : Except String (Option Int)) :
    Command.run comm appName rid r ab (some "") ur ieb ng env host home fs resolveRes spawnRes =
      Command.run comm appName rid r ab none ur ieb ng env host home fs resolveRes spawnRes := by
  rfl
